import Mathlib

/-!
Verification of the anki-llm helper scripts.

This file gives a shallow embedding of the shared AnkiConnect client logic
(`anki_request` in `src/anki_connect_demo.py`, `src/export_glossika_deck.py`,
`src/inspect_fields.py`), the CSV exporter (`export_deck_to_csv` in
`src/export_glossika_deck.py`), the field display truncation
(`main` in `src/anki_connect_demo.py`, `inspect_fields` in
`src/inspect_fields.py`) and the release helper
(`src/scripts/release.py`), and proves the spec claims about them.
-/

namespace AnkiLLM

/-- JSON values as exchanged with the AnkiConnect endpoint.  Objects keep
insertion order, as Python dicts do.  Numbers are integers: every number in
the scripts (protocol version 6, note identifiers) is an integer, and no
claim involves floating point. -/
inductive Json where
  | null
  | bool (b : Bool)
  | num (n : Int)
  | str (s : String)
  | arr (xs : List Json)
  | obj (kvs : List (String × Json))
deriving Repr

/-- Python truthiness of a JSON value, as used by
`if response_json.get("error"):` and `if not note_ids:`.
`None`, `False`, `0`, `""`, `[]` and `{}` are falsy. -/
def pyTruthy : Json → Bool
  | .null => false
  | .bool b => b
  | .num n => n != 0
  | .str s => s != ""
  | .arr xs => !xs.isEmpty
  | .obj kvs => !kvs.isEmpty

/-- Python `dict.get(key)` on a JSON object: the value bound to `key`, or `none`.
With duplicate keys the later binding wins, as when a Python dict is built
key by key (which is what `json.loads` does). -/
def dictGet (kvs : List (String × Json)) (k : String) : Option Json :=
  (kvs.reverse.find? (fun p => p.1 == k)).map (fun p => p.2)

/-! ## JSON serialization (`json.dumps` with default options) -/

/-- Lowercase hex digit. -/
def hexDigit (n : Nat) : Char :=
  if n < 10 then Char.ofNat (48 + n) else Char.ofNat (87 + n)

/-- Four lowercase hex digits, as in `\u00xx` escapes (`%04x`). -/
def hex4 (n : Nat) : List Char :=
  [hexDigit (n / 4096 % 16), hexDigit (n / 256 % 16),
   hexDigit (n / 16 % 16), hexDigit (n % 16)]

/-- How `json.dumps` (default `ensure_ascii=True`) renders one character of
a string: the two-character escapes for `\` `"` and common controls, `\uXXXX`
for other controls and all non-ASCII (with a surrogate pair above U+FFFF),
and the character itself otherwise. -/
def jsonEscapeChar (c : Char) : List Char :=
  if c = '\\' then ['\\', '\\']
  else if c = '"' then ['\\', '"']
  else if c = Char.ofNat 8 then ['\\', 'b']
  else if c = Char.ofNat 12 then ['\\', 'f']
  else if c = '\n' then ['\\', 'n']
  else if c = Char.ofNat 13 then ['\\', 'r']
  else if c = '\t' then ['\\', 't']
  else if c.toNat < 32 then '\\' :: 'u' :: hex4 c.toNat
  else if c.toNat < 127 then [c]
  else if c.toNat < 65536 then '\\' :: 'u' :: hex4 c.toNat
  else
    let v := c.toNat - 65536
    ('\\' :: 'u' :: hex4 (55296 + v / 1024)) ++ ('\\' :: 'u' :: hex4 (56320 + v % 1024))

/-- Rendering of a string by `json.dumps`: quoted, with each character escaped. -/
def jsonDumpStr (s : String) : String :=
  ⟨'"' :: (s.data.flatMap jsonEscapeChar) ++ ['"']⟩

mutual

/-- Serialization by `json.dumps` with the default separators `", "` and `": "`. -/
def jsonDumps : Json → String
  | .null => "null"
  | .bool true => "true"
  | .bool false => "false"
  | .num n => toString n
  | .str s => jsonDumpStr s
  | .arr xs => "[" ++ String.intercalate ", " (jsonDumpsList xs) ++ "]"
  | .obj kvs => "\x7b" ++ String.intercalate ", " (jsonDumpsMembers kvs) ++ "\x7d"

/-- The serializations of the elements of an array. -/
def jsonDumpsList : List Json → List String
  | [] => []
  | x :: xs => jsonDumps x :: jsonDumpsList xs

/-- The `"key": value` serializations of the members of an object. -/
def jsonDumpsMembers : List (String × Json) → List String
  | [] => []
  | (k, v) :: kvs => (jsonDumpStr k ++ ": " ++ jsonDumps v) :: jsonDumpsMembers kvs

end

/-! ## JSON parsing (`json.loads` / `response.json()`)

A fuel-indexed recursive-descent parser over the character list.  It models
`json.loads` on the payloads the scripts exchange; floating-point numbers and
lone UTF-16 surrogates in `\u` escapes are rejected (no claim involves them).
-/

/-- JSON insignificant whitespace. -/
def isJsonWs (c : Char) : Bool :=
  c = ' ' || c = '\t' || c = '\n' || c = Char.ofNat 13

def skipWs (cs : List Char) : List Char := cs.dropWhile isJsonWs

/-- Value of a hex digit character, if it is one. -/
def hexVal (c : Char) : Option Nat :=
  if '0' ≤ c ∧ c ≤ '9' then some (c.toNat - 48)
  else if 'a' ≤ c ∧ c ≤ 'f' then some (c.toNat - 87)
  else if 'A' ≤ c ∧ c ≤ 'F' then some (c.toNat - 70)
  else none

def hex4Val (a b c d : Char) : Option Nat := do
  let va ← hexVal a
  let vb ← hexVal b
  let vc ← hexVal c
  let vd ← hexVal d
  pure (va * 4096 + vb * 256 + vc * 16 + vd)

/-- Parse the body of a JSON string after the opening quote; returns the
decoded characters and the input remaining after the closing quote. -/
def parseStrBody : List Char → Option (List Char × List Char)
  | [] => none
  | '"' :: rest => some ([], rest)
  | '\\' :: 'u' :: a :: b :: c :: d :: rest =>
      match hex4Val a b c d with
      | none => none
      | some n =>
          if 55296 ≤ n ∧ n < 56320 then
            -- high surrogate: must be followed by a low-surrogate escape
            match rest with
            | '\\' :: 'u' :: e :: f :: g :: h :: rest' =>
                match hex4Val e f g h with
                | some m =>
                    if 56320 ≤ m ∧ m < 57344 then
                      (parseStrBody rest').map (fun p =>
                        (Char.ofNat (65536 + (n - 55296) * 1024 + (m - 56320)) :: p.1, p.2))
                    else none
                | none => none
            | _ => none
          else if 56320 ≤ n ∧ n < 57344 then none
          else (parseStrBody rest).map (fun p => (Char.ofNat n :: p.1, p.2))
  | '\\' :: e :: rest =>
      match (if e = '"' then some '"'
             else if e = '\\' then some '\\'
             else if e = '/' then some '/'
             else if e = 'b' then some (Char.ofNat 8)
             else if e = 'f' then some (Char.ofNat 12)
             else if e = 'n' then some '\n'
             else if e = 'r' then some (Char.ofNat 13)
             else if e = 't' then some '\t'
             else none) with
      | some c => (parseStrBody rest).map (fun p => (c :: p.1, p.2))
      | none => none
  | c :: rest =>
      if c.toNat < 32 then none
      else (parseStrBody rest).map (fun p => (c :: p.1, p.2))

def natOfDigits (ds : List Char) : Nat :=
  ds.foldl (fun acc c => acc * 10 + (c.toNat - 48)) 0

/-- Parse an integer JSON number.  A fraction or exponent part (a float in
Python) is rejected: the scripts' payloads contain only integers. -/
def parseNum (cs : List Char) : Option (Json × List Char) :=
  let (neg, cs') := match cs with
    | '-' :: rest => (true, rest)
    | _ => (false, cs)
  let ds := cs'.takeWhile (fun c => '0' ≤ c && c ≤ '9')
  if ds.isEmpty then none
  else
    let rest := cs'.drop ds.length
    match rest with
    | '.' :: _ => none
    | 'e' :: _ => none
    | 'E' :: _ => none
    | _ =>
        let v : Int := Int.ofNat (natOfDigits ds)
        some (.num (if neg then -v else v), rest)

mutual

/-- Parse one JSON value, skipping leading whitespace. -/
def parseVal : Nat → List Char → Option (Json × List Char)
  | 0, _ => none
  | fuel + 1, cs =>
    match skipWs cs with
    | '"' :: rest => (parseStrBody rest).map (fun p => (.str ⟨p.1⟩, p.2))
    | '{' :: rest =>
        (match skipWs rest with
         | '}' :: rest' => some (.obj [], rest')
         | _ => parseMembers fuel rest [])
    | '[' :: rest =>
        (match skipWs rest with
         | ']' :: rest' => some (.arr [], rest')
         | _ => parseItems fuel rest [])
    | 'n' :: 'u' :: 'l' :: 'l' :: rest => some (.null, rest)
    | 't' :: 'r' :: 'u' :: 'e' :: rest => some (.bool true, rest)
    | 'f' :: 'a' :: 'l' :: 's' :: 'e' :: rest => some (.bool false, rest)
    | cs' => parseNum cs'

/-- Parse the elements of a non-empty array, up to and including `]`. -/
def parseItems : Nat → List Char → List Json → Option (Json × List Char)
  | 0, _, _ => none
  | fuel + 1, cs, acc =>
    match parseVal fuel cs with
    | none => none
    | some (v, rest) =>
        match skipWs rest with
        | ',' :: rest' => parseItems fuel rest' (acc ++ [v])
        | ']' :: rest' => some (.arr (acc ++ [v]), rest')
        | _ => none

/-- Parse the members of a non-empty object, up to and including `}`. -/
def parseMembers : Nat → List Char → List (String × Json) → Option (Json × List Char)
  | 0, _, _ => none
  | fuel + 1, cs, acc =>
    match skipWs cs with
    | '"' :: rest =>
        (match parseStrBody rest with
         | none => none
         | some (key, rest') =>
             match skipWs rest' with
             | ':' :: rest2 =>
                 (match parseVal fuel rest2 with
                  | none => none
                  | some (v, rest3) =>
                      match skipWs rest3 with
                      | ',' :: rest4 => parseMembers fuel rest4 (acc ++ [(⟨key⟩, v)])
                      | '}' :: rest4 => some (.obj (acc ++ [(⟨key⟩, v)]), rest4)
                      | _ => none)
             | _ => none)
    | _ => none

end

/-- Top-level `json.loads`: parse a complete document, requiring only whitespace after
the value.  The fuel `2 * length + 2` dominates the recursion depth, which
consumes at least one input character per two fuel units. -/
def jsonLoads (s : String) : Option Json :=
  match parseVal (2 * s.data.length + 2) s.data with
  | some (j, rest) => if skipWs rest = [] then some j else none
  | none => none

/-! ## The AnkiConnect client (`anki_request`)

The same helper appears verbatim in `src/anki_connect_demo.py`,
`src/export_glossika_deck.py` and `src/inspect_fields.py`:

```
payload = {"action": action, "params": params, "version": 6}
try:
    response = requests.post(ANKI_CONNECT_URL, data=json.dumps(payload))
    response.raise_for_status()
    response_json = response.json()
    if response_json.get("error"):
        raise Exception(f"AnkiConnect API error: {response_json['error']}")
    return response_json.get("result")
except requests.exceptions.RequestException as e:
    raise Exception(f"Could not connect to AnkiConnect. Is Anki running? Error: {e}")
```
-/

/-- The request envelope `{"action": action, "params": params, "version": 6}`
built by `anki_request`, in the dict's insertion order. -/
def buildPayload (action : String) (params : List (String × Json)) : Json :=
  .obj [("action", .str action), ("params", .obj params), ("version", .num 6)]

/-- Outcome of `requests.post`: either a `requests.exceptions.RequestException`
(connection refused, timeout, DNS failure, ...) carrying its message, or the
final HTTP response, with its status code and body text. -/
inductive HttpOutcome where
  | exc (cause : String)
  | resp (status : Nat) (body : String)
deriving Repr

/-- The underlying cause wrapped into the transport-failure exception, one
case per `RequestException` source in `anki_request`: an exception from
`requests.post` itself, an `HTTPError` from `response.raise_for_status()`, or
a `requests.exceptions.JSONDecodeError` (a `RequestException` subclass) from
`response.json()`. -/
inductive TransportCause where
  | requestExc (msg : String)
  | httpStatus (status : Nat)
  | jsonDecode (body : String)
deriving Repr

/-- How `anki_request` fails.  The code raises plain `Exception`s, but from
three distinct sites: the `except RequestException` handler (the spec's
`TransportError`, message `"Could not connect to AnkiConnect. ..."` with the
cause embedded verbatim), the envelope-`error` check (the spec's
`RemoteError`, message `"AnkiConnect API error: ..."` with the envelope's
`error` value embedded verbatim), and — only when the parsed body is not a
JSON object — an uncaught `AttributeError` from `.get` on a non-dict. -/
inductive AnkiError where
  | transportError (cause : TransportCause)
  | remoteError (err : Json)
  | attributeError
deriving Repr

/-- Whether `response.raise_for_status()` raises: it raises `HTTPError` exactly for client-error
and server-error status codes, `400 <= status < 600`. -/
def raiseForStatusFails (status : Nat) : Bool :=
  400 ≤ status && status < 600

/-- The helper `anki_request`, as a function of the HTTP outcome of the POST.  Returns
the `result` value on success (Python `None` when the key is absent, i.e.
`Json.null`). -/
def anki_request (out : HttpOutcome) : Except AnkiError Json :=
  match out with
  | .exc cause => .error (.transportError (.requestExc cause))
  | .resp status body =>
      if raiseForStatusFails status then
        .error (.transportError (.httpStatus status))
      else
        match jsonLoads body with
        | none => .error (.transportError (.jsonDecode body))
        | some (.obj kvs) =>
            if pyTruthy ((dictGet kvs "error").getD .null) then
              .error (.remoteError ((dictGet kvs "error").getD .null))
            else
              .ok ((dictGet kvs "result").getD .null)
        | some _ => .error .attributeError

/-- The transport cause `anki_request` reports for a failed outcome: the
exception message for a request exception, the status for an HTTP error. -/
def transportCauseOf : HttpOutcome → TransportCause
  | .exc cause => .requestExc cause
  | .resp status _ => .httpStatus status

/-- A transport-level failure in the sense the code classifies them: the POST
itself raised, or the response has a 4xx or 5xx status. -/
def isTransportFailure : HttpOutcome → Prop
  | .exc _ => True
  | .resp status _ => 400 ≤ status ∧ status < 600

/-! ## The CSV exporter (`export_deck_to_csv` in `src/export_glossika_deck.py`) -/

/-- A note as consumed by the exporter: the `note['fields']` mapping,
flattened from field name to the field record's `'value'` text. -/
def Note := List (String × String)

/-- Lookup `fields.get(name, {}).get('value', '')`: the text of the named field, or
`""` when the field is absent.  With duplicate names the later binding wins,
as in a Python dict. -/
def fieldValue (fields : Note) (name : String) : String :=
  (((fields.reverse).find? (fun p => p.1 == name)).map (fun p => p.2)).getD ""

/-- Python `.replace('\r', '')`: every carriage return removed. -/
def stripCR (s : String) : String :=
  ⟨s.data.filter (fun c => c ≠ Char.ofNat 13)⟩

/-- Whether `csv.writer` (QUOTE_MINIMAL, delimiter `,`, quotechar `"`,
lineterminator `'\n'`) must quote a field: it contains the delimiter, the
quote character, or a newline/carriage return. -/
def csvNeedsQuote (s : String) : Bool :=
  s.data.any (fun c => c = ',' || c = '"' || c = '\n' || c = Char.ofNat 13)

/-- One CSV field as written: quoted with doubled `"` when needed. -/
def csvField (s : String) : String :=
  if csvNeedsQuote s then
    "\"" ++ (⟨s.data.flatMap (fun c => if c = '"' then ['"', '"'] else [c])⟩ : String) ++ "\""
  else s

/-- One CSV record: the fields joined by the delimiter. -/
def csvRow (cells : List String) : String :=
  String.intercalate "," (cells.map csvField)

/-- The `fieldnames` list passed to `csv.DictWriter`. -/
def csvFieldnames : List String :=
  ["id", "english", "japanese", "ka", "ROM", "explanation"]

/-- The six values of the `row` dict built for one note, in `fieldnames`
order: each source field's text with carriage returns stripped. -/
def rowCells (note : Note) : List String :=
  [stripCR (fieldValue note "Id"),
   stripCR (fieldValue note "English"),
   stripCR (fieldValue note "Japanese"),
   stripCR (fieldValue note "か"),
   stripCR (fieldValue note "ROM"),
   stripCR (fieldValue note "Explanation")]

/-- The records written to the CSV file: `writer.writeheader()` followed by
one `writer.writerow(row)` per note, in order. -/
def exportCsvLines (notes : List Note) : List String :=
  csvRow csvFieldnames :: notes.map (fun n => csvRow (rowCells n))

/-- The full text of the output file: each record followed by the
`'\n'` line terminator. -/
def csvFileContent (notes : List Note) : String :=
  String.join ((exportCsvLines notes).map (fun l => l ++ "\n"))

/-- The exporter `export_deck_to_csv` as a function of the outcomes of its two client
calls: the `findNotes` result and, when reached, the `notesInfo` result
(already flattened to `Note`s).  Returns the content written to
`OUTPUT_FILE`, or `none` when the run ends without ever opening the file:
an exception from either call lands in the top-level `except` before
`open(...)`, and an empty/falsy `note_ids` returns early. -/
def export_run (findRes : Except AnkiError Json)
    (infoRes : Except AnkiError (List Note)) : Option String :=
  match findRes with
  | .error _ => none
  | .ok noteIds =>
      if pyTruthy noteIds then
        match infoRes with
        | .error _ => none
        | .ok notes => some (csvFileContent notes)
      else none

/-! ## Field display truncation

`main` in `src/anki_connect_demo.py` and `inspect_fields` in
`src/inspect_fields.py` both print each field as

```
value = field_data['value'][:100]
if len(field_data['value']) > 100:
    value += "..."
```
-/

/-- Python slicing `s[:n]`: the first `n` characters (code points). -/
def pyTake (s : String) (n : Nat) : String :=
  ⟨s.data.take n⟩

/-- The displayed form of one field value. -/
def truncateForDisplay (s : String) : String :=
  let value := pyTake s 100
  if 100 < s.data.length then value ++ "..." else value

/-! ## The release helper (`src/scripts/release.py`) -/

/-- The external commands `main` can run, in the order the script issues
them.  `gitStatus` (`git status --porcelain --ignore-submodules`) is the only
read-only one; `npmVersion` bumps/commits/tags, `npmPublish` publishes, and
the two pushes update the remote. -/
inductive ReleaseCmd where
  | gitStatus
  | npmVersion (bump : String)
  | npmPublish (otp : String)
  | gitPush
  | gitPushTags
deriving Repr, DecidableEq

/-- The environment `main` observes: the stdout of
`git status --porcelain --ignore-submodules`, the `name` and `version`
entries of `package.json` (absent keys give `None`), and the stdout of
`npm version <bump>`. -/
structure ReleaseEnv where
  statusOut : String
  pkgName : Option String
  pkgVersion : Option String
  npmVersionOut : String

/-- Python `str.strip()` whitespace (the ASCII part, which covers every
character `git status --porcelain` can emit). -/
def isPySpace (c : Char) : Bool :=
  c = ' ' || c = '\t' || c = '\n' || c = Char.ofNat 13 ||
  c = Char.ofNat 11 || c = Char.ofNat 12

/-- Python `str.strip()`: leading and trailing whitespace removed. -/
def pyStrip (s : String) : String :=
  ⟨((s.data.dropWhile isPySpace).reverse.dropWhile isPySpace).reverse⟩

/-- Python truthiness of `package_data.get(...)`: falsy when the key is
absent (`None`) or the value is the empty string. -/
def pyTruthyOptStr : Option String → Bool
  | some s => s != ""
  | none => false

/-- The `main` of `release.py`: the sequence of external commands run and the
process exit status (`some 1` for `sys.exit(1)`, `none` for a normal end).
`ensure_clean_worktree` runs `git status` and exits 1 when the stripped
output is non-empty; `read_package_info` exits 1 on a missing name/version;
otherwise `npm version`, `npm publish --otp` and the two pushes follow. -/
def release_main (env : ReleaseEnv) (bump otp : String) :
    List ReleaseCmd × Option Nat :=
  if pyStrip env.statusOut != "" then
    ([.gitStatus], some 1)
  else if !pyTruthyOptStr env.pkgName || !pyTruthyOptStr env.pkgVersion then
    ([.gitStatus], some 1)
  else
    ([.gitStatus, .npmVersion bump, .npmPublish otp, .gitPush, .gitPushTags], none)

/-- The state-changing commands: everything but the `git status` query. -/
def stateChanging : ReleaseCmd → Bool
  | .gitStatus => false
  | _ => true

/-! ## Claims -/

/-- C1 (counterexample).  The claim "for every parsed response envelope whose
`error` field is non-null, `anki_request` fails with a `RemoteError`" is
false: `response_json.get("error")` is a truthiness test, so the envelope
`{"result": ["id1", "id2"], "error": ""}` — whose `error` is the non-null
empty string — does not fail; the call returns the `result` list. -/
theorem empty_error_string_returns_result :
    anki_request (.resp 200 "\x7b\"result\": [\"id1\", \"id2\"], \"error\": \"\"\x7d") =
      .ok (.arr [.str "id1", .str "id2"]) := by
  rfl

/-- C1 (amended).  For every parsed response envelope whose `error` field is
a non-null, non-empty string, `anki_request` fails with a `RemoteError`
carrying exactly that error message verbatim, regardless of what the
`result` field contains. -/
theorem nonempty_error_raises_remote (status : Nat) (body : String)
    (kvs : List (String × Json)) (e : String)
    (hstatus : raiseForStatusFails status = false)
    (hparse : jsonLoads body = some (.obj kvs))
    (herr : dictGet kvs "error" = some (.str e))
    (hne : e ≠ "") :
    anki_request (.resp status body) = .error (.remoteError (.str e)) := by
  simp [anki_request, hstatus, hparse, herr, pyTruthy, hne]

/-- C1 witness: the spec's own scenario, `{"result": null, "error": "deck
was not found"}`, fails with the remote error "deck was not found". -/
theorem nonempty_error_raises_remote_witness :
    anki_request (.resp 200 "\x7b\"result\": null, \"error\": \"deck was not found\"\x7d") =
      .error (.remoteError (.str "deck was not found")) :=
  nonempty_error_raises_remote 200 _
    [("result", .null), ("error", .str "deck was not found")]
    "deck was not found" rfl rfl rfl (by decide)

/-- C2.  For every parsed response envelope whose `error` field is null,
`anki_request` returns exactly the value of the envelope's `result`
field. -/
theorem null_error_returns_result (status : Nat) (body : String)
    (kvs : List (String × Json)) (r : Json)
    (hstatus : raiseForStatusFails status = false)
    (hparse : jsonLoads body = some (.obj kvs))
    (herr : dictGet kvs "error" = some .null)
    (hres : dictGet kvs "result" = some r) :
    anki_request (.resp status body) = .ok r := by
  simp [anki_request, hstatus, hparse, herr, hres, pyTruthy]

/-- C2 witness: the spec's scenario — the mocked envelope
`{"result": ["id1", "id2"], "error": null}` yields the list
`["id1", "id2"]`. -/
theorem null_error_returns_result_witness :
    anki_request (.resp 200 "\x7b\"result\": [\"id1\", \"id2\"], \"error\": null\x7d") =
      .ok (.arr [.str "id1", .str "id2"]) :=
  null_error_returns_result 200 _
    [("result", .arr [.str "id1", .str "id2"]), ("error", .null)]
    (.arr [.str "id1", .str "id2"]) rfl rfl rfl rfl

/-- C3 (counterexample).  The claim "an HTTP response with a non-2xx status
fails with a `TransportError`" is false: `response.raise_for_status()`
raises only for statuses 400–599, so a final response with status 300 and a
well-formed envelope body succeeds and returns the `result` value. -/
theorem status_300_not_transport_error :
    anki_request (.resp 300 "\x7b\"result\": 1, \"error\": null\x7d") = .ok (.num 1) := by
  rfl

/-- C3 (amended).  For every transport-level failure — an exception from the
POST itself (connection refused, timeout, DNS failure), or an HTTP response
with a 4xx or 5xx status — `anki_request` fails with a `TransportError`
carrying the underlying cause, and never propagates an unhandled
lower-level exception: the `RequestException` family is caught and
re-raised as the single connection-failure error. -/
theorem transport_failure_gives_transportError (out : HttpOutcome)
    (h : isTransportFailure out) :
    anki_request out = .error (.transportError (transportCauseOf out)) := by
  cases out with
  | exc cause => rfl
  | resp status body =>
      have hs : raiseForStatusFails status = true := by
        have h400 : 400 ≤ status := h.1
        have h600 : status < 600 := h.2
        simp [raiseForStatusFails]
        omega
      simp [anki_request, hs, transportCauseOf]

/-- C3 witness: a 503 response is classified as a transport failure carrying
the HTTP status. -/
theorem transport_failure_gives_transportError_witness :
    anki_request (.resp 503 "") = .error (.transportError (.httpStatus 503)) :=
  transport_failure_gives_transportError (.resp 503 "")
    (by exact ⟨by decide, by decide⟩)

/-- C4.  Round-trip on the request envelope: serializing the payload built
for action `"findNotes"` with params `{"query": "deck:\"X\""}` and decoding
the resulting JSON body yields back the original action string, the
original `params.query` string and version 6 — indeed the whole original
envelope. -/
theorem findNotes_request_roundtrip :
    jsonLoads (jsonDumps (buildPayload "findNotes" [("query", .str "deck:\"X\"")])) =
      some (.obj [("action", .str "findNotes"),
                  ("params", .obj [("query", .str "deck:\"X\"")]),
                  ("version", .num 6)]) := by
  rfl

/-- C5.  If the HTTP response has a 2xx status but its body fails to parse
as JSON, `anki_request` fails with a `TransportError` for the malformed
response (`response.json()` raises `requests.exceptions.JSONDecodeError`, a
`RequestException`, which the handler catches), not with a `RemoteError` and
not with an unclassified exception. -/
theorem malformed_body_gives_transportError (status : Nat) (body : String)
    (h2 : 200 ≤ status) (h3 : status < 300)
    (hparse : jsonLoads body = none) :
    anki_request (.resp status body) = .error (.transportError (.jsonDecode body)) := by
  have hs : raiseForStatusFails status = false := by
    simp [raiseForStatusFails]
    omega
  simp [anki_request, hs, hparse]

/-- C5 witness: a 200 response whose body is the unparsable `"{"`. -/
theorem malformed_body_gives_transportError_witness :
    anki_request (.resp 200 "\x7b") = .error (.transportError (.jsonDecode "\x7b")) :=
  malformed_body_gives_transportError 200 "\x7b" (by decide) (by decide) rfl

/-- Helper: stripping carriage returns leaves a string with no carriage
return character. -/
theorem stripCR_no_cr (s : String) : Char.ofNat 13 ∉ (stripCR s).data := by
  intro h
  simp only [stripCR, List.mem_filter] at h
  simp at h

/-- Helper: Python `s[:n]` is the identity on strings of length at most
`n`. -/
theorem pyTake_of_le (s : String) (n : Nat) (h : s.length ≤ n) :
    pyTake s n = s := by
  have hd : s.data.take n = s.data := List.take_of_length_le h
  simp [pyTake, hd]

/-- C6.  For every list of retrieved notes, the CSV export writes the header
record `id,english,japanese,ka,ROM,explanation` first, then exactly one
record per note in order, and no field value written to the file contains a
carriage return: every value passes through `.replace('\r', '')` before the
row is written. -/
theorem csv_export_header_rows_no_cr (notes : List Note) :
    exportCsvLines notes =
      "id,english,japanese,ka,ROM,explanation" ::
        notes.map (fun n => csvRow (rowCells n)) ∧
    ∀ n ∈ notes, ∀ v ∈ rowCells n, Char.ofNat 13 ∉ v.data := by
  constructor
  · rfl
  · intro n _ v hv
    simp only [rowCells, List.mem_cons, List.not_mem_nil, or_false] at hv
    rcases hv with h | h | h | h | h | h <;> (subst h; exact stripCR_no_cr _)

/-- C6 witness: the spec's scenario — two notes with embedded carriage
returns export to the fixed header and two carriage-return-free records. -/
theorem csv_export_header_rows_no_cr_witness :
    (exportCsvLines [[("English", "a\x0db")], [("English", "c\x0dd")]]).head? =
      some "id,english,japanese,ka,ROM,explanation" := by
  have h := csv_export_header_rows_no_cr [[("English", "a\x0db")], [("English", "c\x0dd")]]
  rw [h.1]
  rfl

/-- C7.  If note retrieval — the `findNotes` call or the `notesInfo` call —
fails with either error kind, the exporter never reaches `open(...)`: the
exception propagates to the top-level `except` first, so no content at all
is written to the output file on that run. -/
theorem no_write_when_retrieval_fails (findRes : Except AnkiError Json)
    (infoRes : Except AnkiError (List Note))
    (h : (∃ e, findRes = .error e) ∨ (∃ e, infoRes = .error e)) :
    export_run findRes infoRes = none := by
  rcases h with ⟨e, he⟩ | ⟨e, he⟩
  · subst he; rfl
  · subst he
    cases findRes with
    | error e2 => rfl
    | ok v => simp [export_run]

/-- C7 witness: a failed `findNotes` call produces no file content. -/
theorem no_write_when_retrieval_fails_witness :
    export_run (.error (.transportError (.requestExc "connection refused")))
      (.ok []) = none :=
  no_write_when_retrieval_fails _ _ (Or.inl ⟨_, rfl⟩)

/-- C8.  If the parsed response envelope has no `error` key (or a null
`error`) and also no `result` key, `anki_request` succeeds and returns null
(`dict.get` yields Python `None` for the absent key), so an absent `result`
is indistinguishable from a null `result` at the public interface. -/
theorem absent_result_returns_null (status : Nat) (body : String)
    (kvs : List (String × Json))
    (hstatus : raiseForStatusFails status = false)
    (hparse : jsonLoads body = some (.obj kvs))
    (herr : dictGet kvs "error" = none ∨ dictGet kvs "error" = some .null)
    (hres : dictGet kvs "result" = none) :
    anki_request (.resp status body) = .ok .null := by
  rcases herr with h | h <;> simp [anki_request, hstatus, hparse, h, hres, pyTruthy]

/-- C8 witness: the empty envelope `{}` yields a null result. -/
theorem absent_result_returns_null_witness :
    anki_request (.resp 200 "\x7b\x7d") = .ok .null :=
  absent_result_returns_null 200 "\x7b\x7d" [] rfl rfl (Or.inl rfl) rfl

/-- C9.  For every field value `s`, the display scripts print `s[0:100]`,
with `"..."` appended exactly when the length of `s` exceeds 100; values of
length at most 100 are printed unchanged. -/
theorem display_truncation_spec (s : String) :
    (100 < s.length → truncateForDisplay s = pyTake s 100 ++ "...") ∧
    (s.length ≤ 100 → truncateForDisplay s = s) := by
  constructor
  · intro h
    simp [truncateForDisplay, h]
  · intro h
    have hn : ¬ 100 < s.length := by omega
    simp [truncateForDisplay, hn, pyTake_of_le s 100 h]

/-- C9 witness: a short value is printed unchanged; a 101-character value is
truncated to its first 100 characters plus `"..."`. -/
theorem display_truncation_spec_witness :
    truncateForDisplay "hello" = "hello" ∧
    truncateForDisplay ⟨List.replicate 101 'x'⟩ =
      pyTake ⟨List.replicate 101 'x'⟩ 100 ++ "..." :=
  ⟨(display_truncation_spec "hello").2 (by decide),
   (display_truncation_spec ⟨List.replicate 101 'x'⟩).1 (by
     simp [String.length])⟩

/-- C10 (counterexample).  The claim "if `git status --porcelain` output is
non-empty the release script exits with status 1 before any state-changing
command" is false as stated: `ensure_clean_worktree` tests
`status.strip()`, so an output consisting of a lone newline — non-empty —
is treated as clean and the run proceeds through `npm version`,
`npm publish` and both pushes. -/
theorem whitespace_status_not_aborted :
    release_main ⟨"\n", some "anki-llm", some "1.3.0", "v1.3.1"⟩ "patch" "123456" =
      ([.gitStatus, .npmVersion "patch", .npmPublish "123456",
        .gitPush, .gitPushTags], none) := by
  rfl

/-- C10 (amended).  If the `git status --porcelain` output is non-empty
after stripping leading and trailing whitespace (which is the case for
every actually dirty worktree, since porcelain lines contain
non-whitespace), the release script runs only the `git status` query and
exits with status 1: no version bump, commit, tag, publish or push
occurs. -/
theorem dirty_worktree_aborts_before_state_change (env : ReleaseEnv)
    (bump otp : String) (h : pyStrip env.statusOut ≠ "") :
    release_main env bump otp = ([.gitStatus], some 1) ∧
    ∀ c ∈ (release_main env bump otp).1, stateChanging c = false := by
  have hb : (pyStrip env.statusOut != "") = true := by
    simpa using h
  refine ⟨by simp [release_main, hb], ?_⟩
  intro c hc
  simp [release_main, hb] at hc
  subst hc
  rfl

/-- C10 witness: a one-file modification in the porcelain output aborts the
release after the status query. -/
theorem dirty_worktree_aborts_before_state_change_witness :
    release_main ⟨" M src/app.py\n", some "anki-llm", some "1.3.0", "v1.3.1"⟩
        "patch" "123456" = ([.gitStatus], some 1) :=
  (dirty_worktree_aborts_before_state_change
    ⟨" M src/app.py\n", some "anki-llm", some "1.3.0", "v1.3.1"⟩
    "patch" "123456" (by decide)).1

end AnkiLLM
